import Mathlib

/-! Verification model of the ai_manager_app client core: the session store
    (`authStore.ts`), the two authenticated API clients (`request` in the
    djangoApi module and `apiRequest` in do-smart-ai `database.ts`), payload
    normalization, and the local rule-based assistant.

    Modelling conventions, applied throughout:
    * JavaScript `undefined` and JSON `null` are collapsed to `Option.none`
      exactly at the sites where the source treats them identically
      (the `??` operator, explicit `!== undefined && !== null` checks, and
      truthiness tests); no modelled code path distinguishes them.
    * Wire numbers are modelled as integers: every numeric field touched by
      the client is an integral id.
    * `fetch` and the response object are external; each call's outcome
      (network throw, or a response with a status, a Content-Type header, the
      result of `.json()` — `none` when parsing would throw — and the result
      of `.text()`) is an oracle parameter threaded through the model.
    * `localStorage` round-trips sessions through `JSON.stringify`/`parse`;
      the slot is modelled as holding the value itself. -/

namespace AiManagerApp

/-- JSON value as produced by `response.json()`. -/
inductive JsValue where
  | null
  | bool (b : Bool)
  | num (n : Int)
  | str (s : String)
  | arr (elems : List JsValue)
  | obj (fields : List (String × JsValue))
deriving Repr

/-- First binding of a key in a JS object literal's field list. -/
def lookupField : List (String × JsValue) → String → Option JsValue
  | [], _ => none
  | (k, x) :: rest, key => if k = key then some x else lookupField rest key

/-- Property access `v.key`: defined only on objects, `undefined` elsewhere
(array index access by a non-numeric string is also `undefined`). -/
def jsLookup (v : JsValue) (key : String) : Option JsValue :=
  match v with
  | .obj fields => lookupField fields key
  | _ => none

/-- The JS test `v && typeof v === "object"`: true for objects and arrays,
false for `null` (which is `typeof "object"` but falsy) and all primitives. -/
def jsTruthyObject : JsValue → Bool
  | .obj _ => true
  | .arr _ => true
  | _ => false

mutual

/-- JS `String(v)` coercion as performed by the `Error` constructor. -/
def jsToDisplay : JsValue → String
  | .null => "null"
  | .bool true => "true"
  | .bool false => "false"
  | .num n => toString n
  | .str s => s
  | .arr xs => jsToDisplayList xs
  | .obj _ => "[object Object]"

/-- Array `toString`: elements joined by commas, null elements rendered empty. -/
def jsToDisplayList : List JsValue → String
  | [] => ""
  | [.null] => ""
  | [x] => jsToDisplay x
  | .null :: xs => "," ++ jsToDisplayList xs
  | x :: xs => jsToDisplay x ++ "," ++ jsToDisplayList xs

end

/-- A wire id field: the backend sends numeric or string ids. -/
inductive IdVal where
  | num (n : Int)
  | str (s : String)
deriving Repr, DecidableEq

/-- JS `String(id)` on an id value. -/
def idToString : IdVal → String
  | .num n => toString n
  | .str s => s

/-- ASCII lower-casing of one character, as `toLowerCase` acts on the
ASCII range (no claim involves non-ASCII input). -/
def lowerChar (c : Char) : Char :=
  if 'A' ≤ c ∧ c ≤ 'Z' then Char.ofNat (c.toNat + 32) else c

/-- JS `s.toLowerCase()`, restricted to its ASCII action. -/
def jsToLower (s : String) : String := String.mk (s.data.map lowerChar)

/-- Character-list version of `startsWith`. -/
def hasPrefixCh : List Char → List Char → Bool
  | [], _ => true
  | _ :: _, [] => false
  | a :: as, b :: bs => a == b && hasPrefixCh as bs

/-- Character-list version of substring containment. -/
def hasSubCh (needle : List Char) : List Char → Bool
  | [] => needle.isEmpty
  | c :: rest => hasPrefixCh needle (c :: rest) || hasSubCh needle rest

/-- JS `hay.includes(needle)` on strings. -/
def sIncludes (hay needle : String) : Bool := hasSubCh needle.data hay.data

/-- A `Headers` object: name-value pairs with names stored lower-cased
(the `Headers` API is case-insensitive in the header name). -/
abbrev Hdrs := List (String × String)

/-- `headers.set(name, value)`: replace the existing entry or append. -/
def hdrSet : Hdrs → String → String → Hdrs
  | [], n, v => [(jsToLower n, v)]
  | (k, w) :: rest, n, v =>
    if k = jsToLower n then (k, v) :: rest else (k, w) :: hdrSet rest n v

/-- `headers.get(name)`. -/
def hdrGet : Hdrs → String → Option String
  | [], _ => none
  | (k, w) :: rest, n => if k = jsToLower n then some w else hdrGet rest n

/-- `headers.has(name)`. -/
def hdrHas (h : Hdrs) (n : String) : Bool := (hdrGet h n).isSome

/-- `new Headers(init)` from caller-supplied name-value pairs. A duplicated
caller name keeps the last value (JS record literals cannot repeat keys). -/
def hdrInit (xs : List (String × String)) : Hdrs :=
  xs.foldl (fun h p => hdrSet h p.1 p.2) []

/-- Normalized user record (`User` in `types`). -/
structure User where
  id : String
  email : String
  name : String
deriving Repr, DecidableEq

/-- Token pair held by the session store. -/
structure AuthTokens where
  access : String
  refresh : String
deriving Repr, DecidableEq

/-- The persisted session (`StoredAuthState` in `authStore.ts`). -/
structure StoredAuthState where
  tokens : AuthTokens
  user : User
deriving Repr, DecidableEq

/-- Session returned to callers (`AuthSession` in `types`). -/
structure AuthSession where
  accessToken : String
  refreshToken : String
  user : User
deriving Repr, DecidableEq

/-- The session store world: the persisted `localStorage` slot plus the
subscribed listeners (identified by number, in insertion order, no
duplicates — the source keeps them in a `Set`). -/
structure StoreWorld where
  slot : Option StoredAuthState
  listeners : List Nat
deriving Repr, DecidableEq

/-- One synchronous listener invocation: which listener, with which state. -/
abbrev NotifyEvent := Nat × Option StoredAuthState

/-- The `notify` fan-out: every listener is called with the new state. -/
def notifyAll (ls : List Nat) (s : Option StoredAuthState) : List NotifyEvent :=
  ls.map (fun l => (l, s))

/-- `authStore.getState()`: read the persisted slot. -/
def StoreWorld.getState (w : StoreWorld) : Option StoredAuthState := w.slot

/-- `authStore.setState(state)`: write the slot, notify all listeners. -/
def StoreWorld.setState (w : StoreWorld) (s : StoredAuthState) :
    StoreWorld × List NotifyEvent :=
  ({ w with slot := some s }, notifyAll w.listeners (some s))

/-- `authStore.clear()`: remove the slot, notify all listeners with null. -/
def StoreWorld.clear (w : StoreWorld) : StoreWorld × List NotifyEvent :=
  ({ w with slot := none }, notifyAll w.listeners none)

/-- `authStore.updateUser(user)`: replace only the user field, keeping the
tokens; a silent no-op when no session is stored. -/
def StoreWorld.updateUser (w : StoreWorld) (u : User) :
    StoreWorld × List NotifyEvent :=
  match w.slot with
  | none => (w, [])
  | some cur =>
    ({ w with slot := some { cur with user := u } },
     notifyAll w.listeners (some { cur with user := u }))

/-- `authStore.subscribe(listener)`: register a listener (a `Set.add`). -/
def StoreWorld.subscribe (w : StoreWorld) (l : Nat) : StoreWorld :=
  if l ∈ w.listeners then w else { w with listeners := w.listeners ++ [l] }

/-- An HTTP response as observed by the client: status, the Content-Type
header (`none` when absent), the outcome of `.json()` (`none` when parsing
would throw) and the outcome of `.text()`. -/
structure HttpResponse where
  status : Nat
  contentType : Option String
  jsonBody : Option JsValue
  textBody : String
deriving Repr

/-- Outcome of one `fetch` call: a network-level throw, or a response. -/
inductive FetchOutcome where
  | throws
  | ok (r : HttpResponse)
deriving Repr

/-- Oracle for the at most three `fetch` calls one logical request can make:
the first attempt, the refresh-endpoint call, and the retried attempt. -/
structure HttpEnv where
  first : FetchOutcome
  refreshResp : FetchOutcome
  second : FetchOutcome
deriving Repr

/-- `response.ok`: status in the 200-299 range. -/
def respOk (status : Nat) : Bool := 200 ≤ status && status ≤ 299

/-- Parsed request value: `undefined` (204), `null` (no content type),
a JSON value, or plain text. -/
inductive ReqValue where
  | undef
  | nullVal
  | json (v : JsValue)
  | text (s : String)
deriving Repr

/-- What a request call can throw: the typed `ApiError` (message, HTTP
status, parsed body), an uncaught network exception, or an uncaught JSON
parse exception. -/
inductive ReqErr where
  | api (message : String) (status : Nat) (data : ReqValue)
  | transport
  | parse
deriving Repr

/-- Logical request options: the `skipAuth` flag, caller headers, the HTTP
method (`none` when the caller omitted it), and whether the body is a
`FormData` instance. Body bytes are irrelevant to every claim. -/
structure RequestOptions where
  skipAuth : Bool := false
  callerHeaders : List (String × String) := []
  method : Option String := none
  bodyIsFormData : Bool := false
deriving Repr

/-- Result of one logical request: the returned value or thrown error, the
session slot afterwards, the header set sent on each issued attempt of the
original request, and how many refresh-endpoint fetches were made. -/
structure ReqResult where
  outcome : Except ReqErr ReqValue
  store : Option StoredAuthState
  attempts : List Hdrs
  refreshCalls : Nat
deriving Repr

/-- Result of the token-refresh sub-procedure: the value it returns
(`none` for JS null/undefined), the session slot afterwards, and how many
refresh-endpoint fetches were made. -/
structure RefreshResult where
  newAccess : Option String
  store : Option StoredAuthState
  fetches : Nat
deriving Repr

/-- Truthiness of a JS string-or-null value: non-empty strings only. -/
def strTruthy : Option String → Bool
  | none => false
  | some s => s != ""

/-- The test `state?.tokens.access` used before attaching the bearer header. -/
def accessTruthy : Option StoredAuthState → Bool
  | none => false
  | some s => s.tokens.access != ""

/-- The test `state?.tokens.refresh` guarding the refresh-and-retry branch. -/
def refreshTruthy : Option StoredAuthState → Bool
  | none => false
  | some s => s.tokens.refresh != ""

namespace Django

/-- Wire user payload (`RawUser` in the djangoApi module). -/
structure RawUser where
  id : IdVal
  email : Option String := none
  name : Option String := none
deriving Repr, DecidableEq

/-- Wire task payload (`RawTask`): every field but `id` may be absent. -/
structure RawTask where
  id : IdVal
  title : Option String := none
  description : Option String := none
  dueDate : Option String := none
  priority : Option String := none
  status : Option String := none
  createdAt : Option String := none
  updatedAt : Option String := none
  userId : Option IdVal := none
deriving Repr, DecidableEq

/-- Normalized task as produced by this module's `normalizeTask`: every
field defined; `dueDate` is string-or-null. -/
structure Task where
  id : String
  title : String
  description : String
  dueDate : Option String
  priority : String
  status : String
  createdAt : String
  updatedAt : String
  userId : String
deriving Repr, DecidableEq

/-- The djangoApi `normalizeUser`. -/
def normalizeUser (p : RawUser) : User :=
  { id := idToString p.id
    email := p.email.getD ""
    name := (p.name.orElse fun _ => p.email).getD "" }

/-- The djangoApi `normalizeTask`. -/
def normalizeTask (p : RawTask) : Task :=
  { id := idToString p.id
    title := p.title.getD ""
    description := p.description.getD ""
    dueDate := p.dueDate
    priority := p.priority.getD "medium"
    status := p.status.getD "todo"
    createdAt := p.createdAt.getD ""
    updatedAt := p.updatedAt.getD ""
    userId := match p.userId with | some u => idToString u | none => "" }

/-- The djangoApi `refreshAccessToken`. Guard: a falsy `state?.tokens.refresh`
returns null without touching the store and without fetching. On a fetched
non-ok response, on a `.json()` throw, and on a network throw the store is
cleared. On success the new access token is stored next to the existing
refresh token and user. An `access` field that is missing or not a string is
outside the wire contract; the source would store it as-is — its only later
uses are truthiness tests and `Bearer` interpolation, under which the stored
junk behaves like an empty string, which is how it is modelled. -/
def refreshAccessToken (env : FetchOutcome) (store : Option StoredAuthState) :
    RefreshResult :=
  match store with
  | none => ⟨none, none, 0⟩
  | some s =>
    if s.tokens.refresh = "" then ⟨none, some s, 0⟩
    else
      match env with
      | .throws => ⟨none, none, 1⟩
      | .ok r =>
        if respOk r.status then
          match r.jsonBody with
          | none => ⟨none, none, 1⟩
          | some v =>
            match jsLookup v "access" with
            | some (.str a) => ⟨some a, some ⟨⟨a, s.tokens.refresh⟩, s.user⟩, 1⟩
            | _ => ⟨none, some ⟨⟨"", s.tokens.refresh⟩, s.user⟩, 1⟩
        else ⟨none, none, 1⟩

/-- Body handling of `request`: JSON when the declared content type contains
"application/json" (`none` when `.json()` throws), text for any other
non-empty content type, null when no content type is present. -/
def parseBody (r : HttpResponse) : Option ReqValue :=
  let ct := r.contentType.getD ""
  if sIncludes ct "application/json" then
    match r.jsonBody with
    | some v => some (.json v)
    | none => none
  else if ct.length > 0 then some (.text r.textBody)
  else some .nullVal

/-- Error-message selection of `request`: on a truthy object body, `detail`
when it is a string, else `message` when it is a string, else the generic
fallback. -/
def errMessage (status : Nat) (data : ReqValue) : String :=
  let fallback := "Request failed with status " ++ toString status
  match data with
  | .json v =>
    if jsTruthyObject v then
      match jsLookup v "detail" with
      | some (.str s) => s
      | _ =>
        match jsLookup v "message" with
        | some (.str s) => s
        | _ => fallback
    else fallback
  | _ => fallback

/-- Tail of `request` after the final response is known: 204 yields
undefined; otherwise the body is parsed (a JSON parse throw propagates);
a non-ok status raises the typed error, clearing the session first when the
status is 401 and auth was required. -/
def finish (skipAuth : Bool) (r : HttpResponse) (store : Option StoredAuthState) :
    Except ReqErr ReqValue × Option StoredAuthState :=
  if r.status = 204 then (.ok .undef, store)
  else
    match parseBody r with
    | none => (.error .parse, store)
    | some data =>
      if respOk r.status then (.ok data, store)
      else
        (.error (.api (errMessage r.status data) r.status data),
         if r.status = 401 ∧ skipAuth = false then none else store)

/-- The `init.method && init.method !== "GET"` test: a supplied, truthy
(non-empty) method other than GET. -/
def methodHasBody : Option String → Bool
  | some m => m != "" && m != "GET"
  | none => false

/-- Header assembly of `request`: caller headers, then the `Accept` default,
then the `Content-Type` default (body not `FormData`, no caller content type,
method supplied, truthy and not GET), then the bearer header when auth is
wanted and an access token is present. -/
def buildHeaders (opts : RequestOptions) (store : Option StoredAuthState) : Hdrs :=
  let h0 := hdrInit opts.callerHeaders
  let h1 := if hdrHas h0 "Accept" then h0 else hdrSet h0 "Accept" "application/json"
  let h2 :=
    if opts.bodyIsFormData = false ∧ hdrHas h1 "Content-Type" = false ∧
       methodHasBody opts.method = true
    then hdrSet h1 "Content-Type" "application/json" else h1
  if opts.skipAuth = false ∧ accessTruthy store = true then
    hdrSet h2 "Authorization"
      ("Bearer " ++ (match store with | some s => s.tokens.access | none => ""))
  else h2

/-- The djangoApi `request`, as a state machine over the fetch oracle: one
attempt; on a 401 with auth required and a truthy stored refresh token, one
refresh call and — only when it returned a truthy token — one retried
attempt with the re-set bearer header, whose response replaces the first. -/
def request (env : HttpEnv) (opts : RequestOptions)
    (store : Option StoredAuthState) : ReqResult :=
  let h := buildHeaders opts store
  match env.first with
  | .throws => ⟨.error .transport, store, [h], 0⟩
  | .ok r1 =>
    if r1.status = 401 ∧ opts.skipAuth = false ∧ refreshTruthy store = true then
      let rr := refreshAccessToken env.refreshResp store
      if strTruthy rr.newAccess then
        let h2 := hdrSet h "Authorization" ("Bearer " ++ rr.newAccess.getD "")
        match env.second with
        | .throws => ⟨.error .transport, rr.store, [h, h2], rr.fetches⟩
        | .ok r2 =>
          let fin := finish opts.skipAuth r2 rr.store
          ⟨fin.1, fin.2, [h, h2], rr.fetches⟩
      else
        let fin := finish opts.skipAuth r1 rr.store
        ⟨fin.1, fin.2, [h], rr.fetches⟩
    else
      let fin := finish opts.skipAuth r1 store
      ⟨fin.1, fin.2, [h], 0⟩

/-- The response whose status/body decide the outcome of `request`: the
retried response when a successful refresh led to a retry, otherwise the
first response; `none` when the deciding fetch threw. -/
def finalResp (env : HttpEnv) (opts : RequestOptions)
    (store : Option StoredAuthState) : Option HttpResponse :=
  match env.first with
  | .throws => none
  | .ok r1 =>
    if r1.status = 401 ∧ opts.skipAuth = false ∧ refreshTruthy store = true then
      if strTruthy (refreshAccessToken env.refreshResp store).newAccess then
        match env.second with
        | .throws => none
        | .ok r2 => some r2
      else some r1
    else some r1

/-- Success body of login/register: both tokens plus the raw user. -/
structure AuthTokensResponse where
  access : String
  refresh : String
  user : RawUser
deriving Repr, DecidableEq

/-- The success path of `djangoApi.auth.login` (and `register`), given the
backend's reply: normalize the user, persist the full session via
`authStore.setState`, and return the session to the caller. -/
def login (data : AuthTokensResponse) (w : StoreWorld) : StoreWorld × AuthSession :=
  let user := normalizeUser data.user
  ((w.setState ⟨⟨data.access, data.refresh⟩, user⟩).1,
   ⟨data.access, data.refresh, user⟩)

/-- `djangoApi.auth.getSession`. -/
def getSession (w : StoreWorld) : Option AuthSession :=
  match w.getState with
  | none => none
  | some s => some ⟨s.tokens.access, s.tokens.refresh, s.user⟩

/-- Optional nested profile of the `/auth/me/` reply. -/
structure ProfilePayload where
  name : Option String := none
deriving Repr, DecidableEq

/-- The `/auth/me/` success body (`MeResponse`). -/
structure MeResponse where
  id : IdVal
  email : String
  name : Option String := none
  profile : Option ProfilePayload := none
deriving Repr, DecidableEq

/-- Outcome of the underlying `request("/auth/me/")` call, as observed by
`getCurrentUser`: a parsed body, a thrown `ApiError`, or any other throw. -/
inductive MeOutcome where
  | ok (me : MeResponse)
  | apiErr (message : String) (status : Nat) (data : ReqValue)
  | otherErr
deriving Repr

/-- What `getCurrentUser` does in turn: return a user or null, or re-raise. -/
inductive CurrentUserResult where
  | ret (u : Option User)
  | raisedApi (message : String) (status : Nat) (data : ReqValue)
  | raisedOther
deriving Repr

/-- The user `getCurrentUser` builds from a `/auth/me/` body: the name
falls back to the nested profile name, then (inside `normalizeUser`) to the
email. -/
def meUser (me : MeResponse) : User :=
  normalizeUser
    { id := me.id, email := some me.email,
      name := me.name.orElse fun _ =>
        match me.profile with | some p => p.name | none => none }

/-- `djangoApi.auth.getCurrentUser`, as a function of the underlying request
outcome: on success, normalize (name falling back to the profile name, then
the email) and `updateUser`; on a 401 `ApiError`, clear the session and
return null; re-raise anything else untouched. -/
def getCurrentUser (o : MeOutcome) (w : StoreWorld) :
    StoreWorld × CurrentUserResult :=
  match o with
  | .ok me =>
    let normalized := meUser me
    ((w.updateUser normalized).1, .ret (some normalized))
  | .apiErr m s d =>
    if s = 401 then ((StoreWorld.clear w).1, .ret none)
    else (w, .raisedApi m s d)
  | .otherErr => (w, .raisedOther)

end Django

namespace SmartAi

/-- Wire task payload accepted by the do-smart-ai `normalizeTask` (typed
`any` in the source; the same shape as the djangoApi one). -/
abbrev RawTask := Django.RawTask

/-- Normalized task as produced by the do-smart-ai `normalizeTask`: `title`,
`createdAt` and `updatedAt` are passed through and stay undefined (`none`)
when absent from the payload. -/
structure Task where
  id : String
  title : Option String
  description : String
  dueDate : Option String
  priority : String
  status : String
  createdAt : Option String
  updatedAt : Option String
  userId : String
deriving Repr, DecidableEq

/-- Truthiness of the `payload.userId` value: absent, null, `0` and the
empty string are falsy. -/
def jsIdTruthy : Option IdVal → Bool
  | none => false
  | some (.num n) => n != 0
  | some (.str s) => s != ""

/-- The do-smart-ai `normalizeTask`. -/
def normalizeTask (p : RawTask) : Task :=
  { id := idToString p.id
    title := p.title
    description := p.description.getD ""
    dueDate := p.dueDate
    priority := p.priority.getD "medium"
    status := p.status.getD "todo"
    createdAt := p.createdAt
    updatedAt := p.updatedAt
    userId :=
      match p.userId with
      | some u => if jsIdTruthy (some u) then idToString u else ""
      | none => "" }

/-- The do-smart-ai `refreshAccessToken`: returns null only when no session
is stored at all; otherwise it always posts the stored refresh token (even
an empty one). The rest matches the djangoApi version, including the
modelling of a missing `access` field (see `Django.refreshAccessToken`). -/
def refreshAccessToken (env : FetchOutcome) (store : Option StoredAuthState) :
    RefreshResult :=
  match store with
  | none => ⟨none, none, 0⟩
  | some s =>
    match env with
    | .throws => ⟨none, none, 1⟩
    | .ok r =>
      if respOk r.status then
        match r.jsonBody with
        | none => ⟨none, none, 1⟩
        | some v =>
          match jsLookup v "access" with
          | some (.str a) => ⟨some a, some ⟨⟨a, s.tokens.refresh⟩, s.user⟩, 1⟩
          | _ => ⟨none, some ⟨⟨"", s.tokens.refresh⟩, s.user⟩, 1⟩
      else ⟨none, none, 1⟩

/-- Body handling of `apiRequest`: JSON when the declared content type
contains "application/json", otherwise always text — including when no
content type is present at all. -/
def parseBody (r : HttpResponse) : Option ReqValue :=
  let ct := r.contentType.getD ""
  if sIncludes ct "application/json" then
    match r.jsonBody with
    | some v => some (.json v)
    | none => none
  else some (.text r.textBody)

/-- The `??` chain skips only null and undefined. -/
def pickNonNullish : Option JsValue → Option JsValue
  | some .null => none
  | some v => some v
  | none => none

/-- Error-message selection of `apiRequest`:
`data?.detail ?? data?.message ?? generic` — any present, non-null value is
taken regardless of its type and coerced to a string by the `Error`
constructor. -/
def errMessage (status : Nat) (data : ReqValue) : String :=
  let detail := match data with | .json v => jsLookup v "detail" | _ => none
  let msg := match data with | .json v => jsLookup v "message" | _ => none
  match pickNonNullish detail with
  | some v => jsToDisplay v
  | none =>
    match pickNonNullish msg with
    | some v => jsToDisplay v
    | none => "Request failed with status " ++ toString status

/-- Tail of `apiRequest` after the final response is known: as in the
djangoApi version but with this module's body parsing and message rule, and
with no session clearing on a final 401. -/
def finish (r : HttpResponse) (store : Option StoredAuthState) :
    Except ReqErr ReqValue × Option StoredAuthState :=
  if r.status = 204 then (.ok .undef, store)
  else
    match parseBody r with
    | none => (.error .parse, store)
    | some data =>
      if respOk r.status then (.ok data, store)
      else (.error (.api (errMessage r.status data) r.status data), store)

/-- Header assembly of `apiRequest`: no `Accept` default; `Content-Type`
defaulted whenever the body is not `FormData` and the caller supplied none,
regardless of the method; then the bearer header as in the djangoApi
version. -/
def buildHeaders (opts : RequestOptions) (store : Option StoredAuthState) : Hdrs :=
  let h0 := hdrInit opts.callerHeaders
  let h1 :=
    if opts.bodyIsFormData = false ∧ hdrHas h0 "Content-Type" = false
    then hdrSet h0 "Content-Type" "application/json" else h0
  if opts.skipAuth = false ∧ accessTruthy store = true then
    hdrSet h1 "Authorization"
      ("Bearer " ++ (match store with | some s => s.tokens.access | none => ""))
  else h1

/-- The do-smart-ai `apiRequest`, over the same fetch oracle shape as
`Django.request`; the retry skeleton is identical. -/
def apiRequest (env : HttpEnv) (opts : RequestOptions)
    (store : Option StoredAuthState) : ReqResult :=
  let h := buildHeaders opts store
  match env.first with
  | .throws => ⟨.error .transport, store, [h], 0⟩
  | .ok r1 =>
    if r1.status = 401 ∧ opts.skipAuth = false ∧ refreshTruthy store = true then
      let rr := refreshAccessToken env.refreshResp store
      if strTruthy rr.newAccess then
        let h2 := hdrSet h "Authorization" ("Bearer " ++ rr.newAccess.getD "")
        match env.second with
        | .throws => ⟨.error .transport, rr.store, [h, h2], rr.fetches⟩
        | .ok r2 =>
          let fin := finish r2 rr.store
          ⟨fin.1, fin.2, [h, h2], rr.fetches⟩
      else
        let fin := finish r1 rr.store
        ⟨fin.1, fin.2, [h], rr.fetches⟩
    else
      let fin := finish r1 store
      ⟨fin.1, fin.2, [h], 0⟩

/-- The response whose status/body decide the outcome of `apiRequest`. -/
def finalResp (env : HttpEnv) (opts : RequestOptions)
    (store : Option StoredAuthState) : Option HttpResponse :=
  match env.first with
  | .throws => none
  | .ok r1 =>
    if r1.status = 401 ∧ opts.skipAuth = false ∧ refreshTruthy store = true then
      if strTruthy (refreshAccessToken env.refreshResp store).newAccess then
        match env.second with
        | .throws => none
        | .ok r2 => some r2
      else some r1
    else some r1

/-- The session slot after `apiRequest`'s refresh phase (before `finish`,
which in this module never modifies it). -/
def refreshPhaseStore (env : HttpEnv) (opts : RequestOptions)
    (store : Option StoredAuthState) : Option StoredAuthState :=
  match env.first with
  | .throws => store
  | .ok r1 =>
    if r1.status = 401 ∧ opts.skipAuth = false ∧ refreshTruthy store = true then
      (refreshAccessToken env.refreshResp store).store
    else store

/-- The `/auth/me/` body as consumed by the do-smart-ai `getCurrentUser`
(per the wire contract this endpoint returns id, email and optional name). -/
structure RawMe where
  id : IdVal
  email : String
  name : Option String := none
deriving Repr, DecidableEq

/-- The do-smart-ai `normalizeUser` applied to an `/auth/me/` body: the
email is passed through, the name falls back to the email. -/
def normalizeUser (p : RawMe) : User :=
  { id := idToString p.id, email := p.email, name := p.name.getD p.email }

/-- Outcome of the underlying `apiRequest("/auth/me/")` call. -/
inductive MeOutcome where
  | ok (me : RawMe)
  | apiErr (message : String) (status : Nat) (data : ReqValue)
  | otherErr
deriving Repr

/-- The do-smart-ai `authApi.getCurrentUser`: same catch discipline as the
djangoApi version, with its own normalization on success. -/
def getCurrentUser (o : MeOutcome) (w : StoreWorld) :
    StoreWorld × Django.CurrentUserResult :=
  match o with
  | .ok me =>
    let normalized := normalizeUser me
    ((w.updateUser normalized).1, .ret (some normalized))
  | .apiErr m s d =>
    if s = 401 then ((StoreWorld.clear w).1, .ret none)
    else (w, .raisedApi m s d)
  | .otherErr => (w, .raisedOther)

/-- Template rendering of a possibly-undefined title. -/
def titleDisp (t : Task) : String :=
  match t.title with
  | some s => s
  | none => "undefined"

/-- The `.map((t) => `"${t.title}"`).join(", ")` of `askAssistant`. -/
def quoteJoin (ts : List Task) : String :=
  String.intercalate ", " (ts.map fun t => "\"" ++ titleDisp t ++ "\"")

/-- The five canned fallback replies of `askAssistant`. -/
def defaultResponses : List String :=
  ["Based on your current tasks, I suggest tackling the high-priority items first. They\x27ll give you the biggest impact!",
   "Consider breaking down larger tasks into smaller, manageable chunks. It makes progress feel more achievable.",
   "Don\x27t forget to take breaks between tasks. Productivity isn\x27t just about doing more-it\x27s about sustainable focus.",
   "Try time-blocking your tasks. Assign specific time slots to each task to maintain focus and momentum.",
   "Review your completed tasks regularly. It\x27s a great way to see your progress and stay motivated!"]

/-- The do-smart-ai `aiApi.askAssistant`. Its two impure inputs are passed
as oracles: `dateLt d` models `new Date(d) < new Date()` for the overdue
branch, and `randIdx` models the uniform draw `Math.floor(Math.random() * 5)`
for the fallback branch. `Math.round((completed / total) * 100)` rounds a
float; it is modelled as exact half-up rounding of the rational
100·completed/total, i.e. `(200 * completed + total) / (2 * total)` in
natural division, which agrees with the float computation on every input
whose double rounding does not straddle a half-integer boundary. -/
def askAssistant (message : String) (tasks : List Task)
    (dateLt : String → Bool) (randIdx : Fin 5) : String :=
  let m := jsToLower message
  if sIncludes m "priority" || sIncludes m "first" || sIncludes m "important" then
    let hp := tasks.filter fun t => t.priority == "high" && t.status != "completed"
    if hp.length > 0 then
      "I recommend focusing on these high-priority tasks: " ++ quoteJoin hp ++
        ". Start with the ones due soonest!"
    else
      "You\x27re doing great! Focus on your medium-priority tasks or take a well-deserved break."
  else if sIncludes m "overdue" || sIncludes m "late" then
    let ov := tasks.filter fun t =>
      match t.dueDate with
      | none => false
      | some d => !(d == "") && !(t.status == "completed") && dateLt d
    if ov.length > 0 then
      "You have " ++ toString ov.length ++ " overdue task(s): " ++ quoteJoin ov ++
        ". Consider prioritizing these!"
    else
      "Great news! You don\x27t have any overdue tasks. Keep up the excellent work!"
  else if sIncludes m "progress" || sIncludes m "status" then
    let completedCount := (tasks.filter fun t => t.status == "completed").length
    let totalCount := tasks.length
    let percentage :=
      if totalCount > 0 then (200 * completedCount + totalCount) / (2 * totalCount)
      else 0
    "You\x27ve completed " ++ toString completedCount ++ " out of " ++
      toString totalCount ++ " tasks (" ++ toString percentage ++ "%). " ++
      (if percentage ≥ 75 then "Excellent progress!"
       else if percentage ≥ 50 then "Good momentum!"
       else "Keep going!")
  else
    defaultResponses.getD randIdx.val ""

end SmartAi

/-- Claim-side error-message rule, written from the spec's words: the body's
`detail` field if that is a string, else its `message` field if that is a
string, else the generic string. A body that is not a JSON object has no
fields. -/
def specFieldStr : ReqValue → String → Option String
  | .json v, key =>
    match jsLookup v key with
    | some (.str s) => some s
    | _ => none
  | _, _ => none

/-- Claim-side error message for status `status` and parsed body `data`. -/
def specErrMessage (status : Nat) (data : ReqValue) : String :=
  match specFieldStr data "detail" with
  | some s => s
  | none =>
    match specFieldStr data "message" with
    | some s => s
    | none => "Request failed with status " ++ toString status

/-- Claim-side notion of a no-body method: the method is absent (fetch
defaults it to GET), empty, or GET itself. -/
def noBodyMethod : Option String → Bool
  | none => true
  | some m => m == "" || m == "GET"

/-- The parsed body observable through an outcome: the returned value on
success, the `data` carried by a typed error, nothing on an uncaught
exception. -/
def dataOf : Except ReqErr ReqValue → Option ReqValue
  | .ok v => some v
  | .error (.api _ _ d) => some d
  | .error _ => none

/-- Claim-side rounding `round(100 * completed / total)` over the exact
rationals, with the empty-list guard. -/
def specPercentage (completed total : Nat) : Nat :=
  if total = 0 then 0
  else ⌊(100 * (completed : ℚ) / total) + 1 / 2⌋₊

/-- C7: for the session store in a browser context with working storage,
`getState()` is null when no session has ever been set; after `setState(s)`
it returns `s` field-wise; `clear()` makes it null, synchronously notifies
every active listener — in particular any listener previously registered by
`subscribe` — with null during the call, and is idempotent (a second
`clear()` yields the same store and the same notifications). -/
theorem c7_session_store_contract :
    (∀ ls, (StoreWorld.mk none ls).getState = none) ∧
    (∀ w s, ((StoreWorld.setState w s).1).getState = some s) ∧
    (∀ w, ((StoreWorld.clear w).1).getState = none) ∧
    (∀ w, (StoreWorld.clear w).2 =
        w.listeners.map fun l => (l, (none : Option StoredAuthState))) ∧
    (∀ w l, (l, (none : Option StoredAuthState)) ∈
        (StoreWorld.clear (StoreWorld.subscribe w l)).2) ∧
    (∀ w, StoreWorld.clear ((StoreWorld.clear w).1) =
        ((StoreWorld.clear w).1, (StoreWorld.clear w).2)) := by
  refine ⟨fun ls => rfl, fun w s => rfl, fun w => rfl, fun w => rfl, ?_, fun w => rfl⟩
  intro w l
  have hmem : l ∈ (StoreWorld.subscribe w l).listeners := by
    unfold StoreWorld.subscribe
    split
    · assumption
    · simp
  simp only [StoreWorld.clear, notifyAll, List.mem_map]
  exact ⟨l, hmem, rfl⟩

/-- C8: a successful login persists the full new session (both tokens plus
the normalized user) as a side effect of the call itself; concretely, for the
backend reply access "A1", refresh "R1", user id 7 / email "a@b.com" with no
name, a subsequent `getSession()` returns accessToken "A1", refreshToken
"R1" and the user with the numeric id coerced to "7" and the missing name
defaulted to the email. -/
theorem c8_login_persists_full_session :
    (∀ data w, ((Django.login data w).1).getState =
        some ⟨⟨data.access, data.refresh⟩, Django.normalizeUser data.user⟩) ∧
    (∀ w, Django.getSession
        ((Django.login ⟨"A1", "R1", ⟨.num 7, some "a@b.com", none⟩⟩ w).1) =
        some ⟨"A1", "R1", ⟨"7", "a@b.com", "a@b.com"⟩⟩) :=
  ⟨fun _ _ => rfl, fun _ => rfl⟩

/-- C4 counterexample: on the payload with id 1 and numeric userId 0 and all
other fields absent, the do-smart-ai `normalizeTask` (one of the two
functions the claim covers) leaves `title` undefined — contradicting "no
field is undefined" — and maps the present numeric userId 0 to the empty
string even though its string representation is "0". -/
theorem c4_counterexample :
    (SmartAi.normalizeTask { id := .num 1, userId := some (.num 0) }).title = none ∧
    (SmartAi.normalizeTask { id := .num 1, userId := some (.num 0) }).userId = "" ∧
    idToString (.num 0) = "0" :=
  ⟨rfl, rfl, rfl⟩

/-- C4 amended: the djangoApi `normalizeTask` fills exactly the documented
defaults (description → "", priority → "medium", status → "todo",
dueDate → null, userId → "", and also title/createdAt/updatedAt → "") so no
field is undefined, coerces a present userId to its string representation
and always sets id to `String(payload.id)`; the do-smart-ai `normalizeTask`
satisfies the same defaults for description/priority/status/dueDate and id,
but passes title, createdAt and updatedAt through (undefined when absent)
and maps a falsy userId (absent, null, numeric 0 or empty string) to the
empty string, coercing only truthy userIds. -/
theorem c4_normalizeTask_defaults :
    (∀ p : Django.RawTask,
      (Django.normalizeTask p).id = idToString p.id ∧
      (p.title = none → (Django.normalizeTask p).title = "") ∧
      (p.description = none → (Django.normalizeTask p).description = "") ∧
      (p.dueDate = none → (Django.normalizeTask p).dueDate = none) ∧
      (p.priority = none → (Django.normalizeTask p).priority = "medium") ∧
      (p.status = none → (Django.normalizeTask p).status = "todo") ∧
      (p.createdAt = none → (Django.normalizeTask p).createdAt = "") ∧
      (p.updatedAt = none → (Django.normalizeTask p).updatedAt = "") ∧
      (p.userId = none → (Django.normalizeTask p).userId = "") ∧
      (∀ u, p.userId = some u → (Django.normalizeTask p).userId = idToString u)) ∧
    (∀ p : SmartAi.RawTask,
      (SmartAi.normalizeTask p).id = idToString p.id ∧
      (SmartAi.normalizeTask p).title = p.title ∧
      (SmartAi.normalizeTask p).createdAt = p.createdAt ∧
      (SmartAi.normalizeTask p).updatedAt = p.updatedAt ∧
      (p.description = none → (SmartAi.normalizeTask p).description = "") ∧
      (p.dueDate = none → (SmartAi.normalizeTask p).dueDate = none) ∧
      (p.priority = none → (SmartAi.normalizeTask p).priority = "medium") ∧
      (p.status = none → (SmartAi.normalizeTask p).status = "todo") ∧
      (p.userId = none → (SmartAi.normalizeTask p).userId = "") ∧
      (∀ u, p.userId = some u → (SmartAi.normalizeTask p).userId =
        if SmartAi.jsIdTruthy (some u) then idToString u else "")) := by
  constructor
  · intro p
    refine ⟨rfl, ?_, ?_, ?_, ?_, ?_, ?_, ?_, ?_, ?_⟩ <;>
      first
        | (intro h; simp [Django.normalizeTask, h])
        | (intro u h; simp [Django.normalizeTask, h])
  · intro p
    refine ⟨rfl, rfl, rfl, rfl, ?_, ?_, ?_, ?_, ?_, ?_⟩ <;>
      first
        | (intro h; simp [SmartAi.normalizeTask, h])
        | (intro u h; simp [SmartAi.normalizeTask, h])

/-- C4 amended witness at a concrete payload: all fields absent, then with a
present userId. -/
theorem c4_amended_witness :
    (Django.normalizeTask { id := .num 3 }).userId = "" ∧
    (Django.normalizeTask { id := .num 3, userId := some (.num 0) }).userId = "0" ∧
    (SmartAi.normalizeTask { id := .num 3 }).priority = "medium" := by
  refine ⟨?_, ?_, ?_⟩
  · exact (c4_normalizeTask_defaults.1 { id := .num 3 }).2.2.2.2.2.2.2.2.1 rfl
  · exact ((c4_normalizeTask_defaults.1
      { id := .num 3, userId := some (.num 0) }).2.2.2.2.2.2.2.2.2 (.num 0)) rfl
  · exact (c4_normalizeTask_defaults.2 { id := .num 3 }).2.2.2.2.2.2.1 rfl

/-- C3: the token-refresh sub-procedure (both module variants), on a
successful refresh response carrying the new access token, stores a session
whose access token is the new one while the stored refresh token and user
equal the ones stored before; on a non-success refresh response, on a body
whose JSON parsing throws, and on a network exception, it clears the session
and reports failure by returning null. -/
theorem c3_refresh_frame_and_failure :
    ∀ (s : StoredAuthState) (r : HttpResponse) (v : JsValue) (a : String),
      (s.tokens.refresh ≠ "" → respOk r.status = true → r.jsonBody = some v →
        jsLookup v "access" = some (.str a) →
        Django.refreshAccessToken (.ok r) (some s) =
          ⟨some a, some ⟨⟨a, s.tokens.refresh⟩, s.user⟩, 1⟩) ∧
      (s.tokens.refresh ≠ "" → respOk r.status = false →
        Django.refreshAccessToken (.ok r) (some s) = ⟨none, none, 1⟩) ∧
      (s.tokens.refresh ≠ "" → respOk r.status = true → r.jsonBody = none →
        Django.refreshAccessToken (.ok r) (some s) = ⟨none, none, 1⟩) ∧
      (s.tokens.refresh ≠ "" →
        Django.refreshAccessToken .throws (some s) = ⟨none, none, 1⟩) ∧
      (respOk r.status = true → r.jsonBody = some v →
        jsLookup v "access" = some (.str a) →
        SmartAi.refreshAccessToken (.ok r) (some s) =
          ⟨some a, some ⟨⟨a, s.tokens.refresh⟩, s.user⟩, 1⟩) ∧
      (respOk r.status = false →
        SmartAi.refreshAccessToken (.ok r) (some s) = ⟨none, none, 1⟩) ∧
      (respOk r.status = true → r.jsonBody = none →
        SmartAi.refreshAccessToken (.ok r) (some s) = ⟨none, none, 1⟩) ∧
      (SmartAi.refreshAccessToken .throws (some s) = ⟨none, none, 1⟩) := by
  intro s r v a
  refine ⟨?_, ?_, ?_, ?_, ?_, ?_, ?_, rfl⟩
  · intro h1 h2 h3 h4
    simp [Django.refreshAccessToken, h1, h2, h3, h4]
  · intro h1 h2
    simp [Django.refreshAccessToken, h1, h2]
  · intro h1 h2 h3
    simp [Django.refreshAccessToken, h1, h2, h3]
  · intro h1
    simp [Django.refreshAccessToken, h1]
  · intro h2 h3 h4
    simp [SmartAi.refreshAccessToken, h2, h3, h4]
  · intro h2
    simp [SmartAi.refreshAccessToken, h2]
  · intro h2 h3
    simp [SmartAi.refreshAccessToken, h2, h3]

/-- C3 witness: a concrete 200 refresh response with access "A2" against a
stored session with refresh "R", and a concrete 500 response. -/
theorem c3_witness :
    Django.refreshAccessToken
        (.ok ⟨200, some "application/json", some (.obj [("access", .str "A2")]), ""⟩)
        (some ⟨⟨"A", "R"⟩, ⟨"1", "e", "n"⟩⟩) =
      ⟨some "A2", some ⟨⟨"A2", "R"⟩, ⟨"1", "e", "n"⟩⟩, 1⟩ ∧
    Django.refreshAccessToken (.ok ⟨500, none, none, ""⟩)
        (some ⟨⟨"A", "R"⟩, ⟨"1", "e", "n"⟩⟩) = ⟨none, none, 1⟩ :=
  ⟨(c3_refresh_frame_and_failure ⟨⟨"A", "R"⟩, ⟨"1", "e", "n"⟩⟩
      ⟨200, some "application/json", some (.obj [("access", .str "A2")]), ""⟩
      (.obj [("access", .str "A2")]) "A2").1 (by decide) rfl rfl rfl,
   (c3_refresh_frame_and_failure ⟨⟨"A", "R"⟩, ⟨"1", "e", "n"⟩⟩
      ⟨500, none, none, ""⟩ (.obj []) "A2").2.1 (by decide) rfl⟩

/-- C9: `getCurrentUser` (both module variants) never lets a 401 typed error
escape: on an `ApiError` with status 401 it clears the session and returns
null; any other failure — a non-401 `ApiError` or a generic exception — is
re-raised unchanged with the store world untouched; on success it replaces
only the user field of the stored session (a no-op when none is stored),
preserving the tokens, and returns the normalized user. -/
theorem c9_getCurrentUser_error_discipline :
    (∀ me w,
      (Django.getCurrentUser (.ok me) w).2 = .ret (some (Django.meUser me)) ∧
      ((Django.getCurrentUser (.ok me) w).1).slot =
        w.slot.map (fun cur => { cur with user := Django.meUser me }) ∧
      ((Django.getCurrentUser (.ok me) w).1).listeners = w.listeners) ∧
    (∀ m d w, Django.getCurrentUser (.apiErr m 401 d) w =
        (⟨none, w.listeners⟩, .ret none)) ∧
    (∀ m s d w, s ≠ 401 →
        Django.getCurrentUser (.apiErr m s d) w = (w, .raisedApi m s d)) ∧
    (∀ w, Django.getCurrentUser .otherErr w = (w, .raisedOther)) ∧
    (∀ me w,
      (SmartAi.getCurrentUser (.ok me) w).2 =
        .ret (some (SmartAi.normalizeUser me)) ∧
      ((SmartAi.getCurrentUser (.ok me) w).1).slot =
        w.slot.map (fun cur => { cur with user := SmartAi.normalizeUser me }) ∧
      ((SmartAi.getCurrentUser (.ok me) w).1).listeners = w.listeners) ∧
    (∀ m d w, SmartAi.getCurrentUser (.apiErr m 401 d) w =
        (⟨none, w.listeners⟩, .ret none)) ∧
    (∀ m s d w, s ≠ 401 →
        SmartAi.getCurrentUser (.apiErr m s d) w = (w, .raisedApi m s d)) ∧
    (∀ w, SmartAi.getCurrentUser .otherErr w = (w, .raisedOther)) := by
  refine ⟨?_, ?_, ?_, fun w => rfl, ?_, ?_, ?_, fun w => rfl⟩
  · intro me w
    refine ⟨rfl, ?_, ?_⟩ <;>
      cases h : w.slot <;>
        simp [Django.getCurrentUser, StoreWorld.updateUser, h]
  · intro m d w
    rfl
  · intro m s d w hs
    simp [Django.getCurrentUser, hs]
  · intro me w
    refine ⟨rfl, ?_, ?_⟩ <;>
      cases h : w.slot <;>
        simp [SmartAi.getCurrentUser, StoreWorld.updateUser, h]
  · intro m d w
    rfl
  · intro m s d w hs
    simp [SmartAi.getCurrentUser, hs]

/-- C9 witness: a 403 `ApiError` is re-raised unchanged from a concrete
world. -/
theorem c9_witness :
    Django.getCurrentUser (.apiErr "no" 403 .nullVal) ⟨none, []⟩ =
      (⟨none, []⟩, .raisedApi "no" 403 .nullVal) :=
  c9_getCurrentUser_error_discipline.2.2.1 "no" 403 .nullVal ⟨none, []⟩ (by decide)

/-- Guarded integer half-up rounding agrees with the claim-side rational
rounding `round(100 * c / t)`. -/
theorem jsPercentage_eq (c t : Nat) :
    (if t > 0 then (200 * c + t) / (2 * t) else 0) = specPercentage c t := by
  unfold specPercentage
  rcases Nat.eq_zero_or_pos t with h | h
  · simp [h]
  · rw [if_pos h, if_neg h.ne']
    have ht : (t : ℚ) ≠ 0 := Nat.cast_ne_zero.mpr h.ne'
    have key : (100 * (c : ℚ) / t) + 1 / 2 =
        ((200 * c + t : ℕ) : ℚ) / ((2 * t : ℕ) : ℚ) := by
      push_cast
      field_simp
      ring
    rw [key, Nat.floor_div_nat, Nat.floor_natCast]

/-- C10: on any message whose lowercase form contains "progress" or "status"
but none of "priority", "first", "important", "overdue", "late", the local
rule-based assistant deterministically returns the progress report whose
percentage equals round(100 · completed / total) for a non-empty task list
and 0 for an empty one — the division is guarded and never evaluated on an
empty list, as witnessed by `specPercentage`'s own guard. -/
theorem c10_progress_branch (message : String) (tasks : List SmartAi.Task)
    (dateLt : String → Bool) (randIdx : Fin 5)
    (hprog : (sIncludes (jsToLower message) "progress"
      || sIncludes (jsToLower message) "status") = true)
    (h1 : sIncludes (jsToLower message) "priority" = false)
    (h2 : sIncludes (jsToLower message) "first" = false)
    (h3 : sIncludes (jsToLower message) "important" = false)
    (h4 : sIncludes (jsToLower message) "overdue" = false)
    (h5 : sIncludes (jsToLower message) "late" = false) :
    SmartAi.askAssistant message tasks dateLt randIdx =
      "You\x27ve completed " ++
        toString (tasks.filter fun t => t.status == "completed").length ++
        " out of " ++ toString tasks.length ++ " tasks (" ++
        toString (specPercentage
          (tasks.filter fun t => t.status == "completed").length tasks.length) ++
        "%). " ++
        (if specPercentage
            (tasks.filter fun t => t.status == "completed").length tasks.length ≥ 75
         then "Excellent progress!"
         else if specPercentage
            (tasks.filter fun t => t.status == "completed").length tasks.length ≥ 50
         then "Good momentum!"
         else "Keep going!") := by
  have e1 : (sIncludes (jsToLower message) "priority"
      || sIncludes (jsToLower message) "first"
      || sIncludes (jsToLower message) "important") = false := by
    rw [h1, h2, h3]; rfl
  have e2 : (sIncludes (jsToLower message) "overdue"
      || sIncludes (jsToLower message) "late") = false := by
    rw [h4, h5]; rfl
  rw [SmartAi.askAssistant, e1, e2, hprog]
  simp only [Bool.false_eq_true, if_false, if_true,
    jsPercentage_eq (tasks.filter fun t => t.status == "completed").length tasks.length]

/-- C10 witness: the message "status" over an empty task list yields the
guarded 0% report. -/
theorem c10_witness :
    SmartAi.askAssistant "status" [] (fun _ => false) 0 =
      "You\x27ve completed 0 out of 0 tasks (0%). Keep going!" :=
  (c10_progress_branch "status" [] (fun _ => false) 0
    (by decide) (by decide) (by decide) (by decide) (by decide) (by decide)).trans
    (by decide)

/-- Setting a header makes it readable back. -/
theorem hdrGet_set_self (h : Hdrs) (n v : String) :
    hdrGet (hdrSet h n v) n = some v := by
  induction h with
  | nil => simp [hdrSet, hdrGet]
  | cons p rest ih =>
    obtain ⟨k, w⟩ := p
    by_cases hk : k = jsToLower n
    · simp only [hdrSet, if_pos hk, hdrGet, hk, if_true]
    · simp only [hdrSet, if_neg hk, hdrGet, if_neg hk, ih]

/-- Setting one header leaves every other header unchanged. -/
theorem hdrGet_set_ne (h : Hdrs) (n q v : String)
    (hne : jsToLower n ≠ jsToLower q) :
    hdrGet (hdrSet h n v) q = hdrGet h q := by
  induction h with
  | nil =>
    simp only [hdrSet, hdrGet, if_neg hne]
  | cons p rest ih =>
    obtain ⟨k, w⟩ := p
    simp only [hdrSet]
    by_cases hk : k = jsToLower n
    · have hkq : ¬k = jsToLower q := by rw [hk]; exact hne
      rw [if_pos hk]
      simp only [hdrGet, if_neg hkq]
    · rw [if_neg hk]
      simp only [hdrGet]
      by_cases hq : k = jsToLower q
      · rw [if_pos hq, if_pos hq]
      · rw [if_neg hq, if_neg hq, ih]

/-- Setting one header leaves the presence of every other unchanged. -/
theorem hdrHas_set_ne (h : Hdrs) (n q v : String)
    (hne : jsToLower n ≠ jsToLower q) :
    hdrHas (hdrSet h n v) q = hdrHas h q := by
  simp [hdrHas, hdrGet_set_ne h n q v hne]

/-- The source's method test is the negation of the claim-side no-body
predicate. -/
theorem methodHasBody_eq_not_noBody (m : Option String) :
    Django.methodHasBody m = !noBodyMethod m := by
  cases m with
  | none => rfl
  | some s => simp [Django.methodHasBody, noBodyMethod, Bool.not_or, bne]

/-- Accept and Content-Type of the headers built by `Django.buildHeaders`,
per the claim. -/
theorem django_buildHeaders_spec (opts : RequestOptions)
    (store : Option StoredAuthState) :
    (hdrHas (hdrInit opts.callerHeaders) "Accept" = false →
      hdrGet (Django.buildHeaders opts store) "Accept" = some "application/json") ∧
    (∀ v, hdrGet (hdrInit opts.callerHeaders) "Accept" = some v →
      hdrGet (Django.buildHeaders opts store) "Accept" = some v) ∧
    (hdrHas (hdrInit opts.callerHeaders) "Content-Type" = false →
      opts.bodyIsFormData = false → noBodyMethod opts.method = false →
      hdrGet (Django.buildHeaders opts store) "Content-Type" =
        some "application/json") ∧
    (hdrHas (hdrInit opts.callerHeaders) "Content-Type" = false →
      (opts.bodyIsFormData = true ∨ noBodyMethod opts.method = true) →
      hdrGet (Django.buildHeaders opts store) "Content-Type" = none) ∧
    (∀ v, hdrGet (hdrInit opts.callerHeaders) "Content-Type" = some v →
      hdrGet (Django.buildHeaders opts store) "Content-Type" = some v) := by
  have gCA : ∀ (h : Hdrs) v,
      hdrGet (hdrSet h "Content-Type" v) "Accept" = hdrGet h "Accept" :=
    fun h v => hdrGet_set_ne h _ _ v (by decide)
  have gUA : ∀ (h : Hdrs) v,
      hdrGet (hdrSet h "Authorization" v) "Accept" = hdrGet h "Accept" :=
    fun h v => hdrGet_set_ne h _ _ v (by decide)
  have gAC : ∀ (h : Hdrs) v,
      hdrGet (hdrSet h "Accept" v) "Content-Type" = hdrGet h "Content-Type" :=
    fun h v => hdrGet_set_ne h _ _ v (by decide)
  have gUC : ∀ (h : Hdrs) v,
      hdrGet (hdrSet h "Authorization" v) "Content-Type" = hdrGet h "Content-Type" :=
    fun h v => hdrGet_set_ne h _ _ v (by decide)
  have bAC : ∀ (h : Hdrs) v,
      hdrHas (hdrSet h "Accept" v) "Content-Type" = hdrHas h "Content-Type" :=
    fun h v => hdrHas_set_ne h _ _ v (by decide)
  refine ⟨?_, ?_, ?_, ?_, ?_⟩
  · intro habs
    by_cases hAuth : opts.skipAuth = false ∧ accessTruthy store = true <;>
      by_cases hC : opts.bodyIsFormData = false ∧
        hdrHas (hdrInit opts.callerHeaders) "Content-Type" = false ∧
        Django.methodHasBody opts.method = true <;>
      simp [Django.buildHeaders, habs, hAuth, hC, bAC, gCA, gUA, hdrGet_set_self]
  · intro v hv
    have hhas : hdrHas (hdrInit opts.callerHeaders) "Accept" = true := by
      simp [hdrHas, hv]
    by_cases hAuth : opts.skipAuth = false ∧ accessTruthy store = true <;>
      by_cases hC : opts.bodyIsFormData = false ∧
        hdrHas (hdrInit opts.callerHeaders) "Content-Type" = false ∧
        Django.methodHasBody opts.method = true <;>
      simp [Django.buildHeaders, hhas, hAuth, hC, gCA, gUA, hv]
  · intro hct hfd hm
    have hmb : Django.methodHasBody opts.method = true := by
      rw [methodHasBody_eq_not_noBody, hm]; rfl
    by_cases hA : hdrHas (hdrInit opts.callerHeaders) "Accept" = true <;>
      by_cases hAuth : opts.skipAuth = false ∧ accessTruthy store = true <;>
      simp [Django.buildHeaders, hA, hAuth, hfd, hmb, hct, bAC,
        gUC, hdrGet_set_self]
  · intro hct hdisj
    have hget : hdrGet (hdrInit opts.callerHeaders) "Content-Type" = none := by
      rcases hg : hdrGet (hdrInit opts.callerHeaders) "Content-Type" with _ | v
      · rfl
      · rw [hdrHas, hg] at hct; cases hct
    have hcoff : (opts.bodyIsFormData = false ∧
        Django.methodHasBody opts.method = true) = False := by
      simp only [eq_iff_iff, iff_false]
      rintro ⟨hfd, hmb⟩
      rcases hdisj with hb | hmn
      · rw [hfd] at hb; cases hb
      · rw [methodHasBody_eq_not_noBody, hmn] at hmb; cases hmb
    by_cases hA : hdrHas (hdrInit opts.callerHeaders) "Accept" = true <;>
      by_cases hAuth : opts.skipAuth = false ∧ accessTruthy store = true <;>
      simp [Django.buildHeaders, hA, hAuth, bAC, hcoff, hct,
        gUC, gAC, hget]
  · intro v hv
    have hhasCT : hdrHas (hdrInit opts.callerHeaders) "Content-Type" = true := by
      simp [hdrHas, hv]
    by_cases hA : hdrHas (hdrInit opts.callerHeaders) "Accept" = true <;>
      by_cases hAuth : opts.skipAuth = false ∧ accessTruthy store = true <;>
      simp [Django.buildHeaders, hA, hAuth, bAC, hhasCT, gUC, gAC, hv]

/-- Accept and Content-Type of the headers built by `SmartAi.buildHeaders`:
no Accept default is ever added, and the Content-Type default depends only
on `FormData` and the caller headers, not on the method. -/
theorem smartai_buildHeaders_spec (opts : RequestOptions)
    (store : Option StoredAuthState) :
    (hdrGet (SmartAi.buildHeaders opts store) "Accept" =
      hdrGet (hdrInit opts.callerHeaders) "Accept") ∧
    (hdrHas (hdrInit opts.callerHeaders) "Content-Type" = false →
      opts.bodyIsFormData = false →
      hdrGet (SmartAi.buildHeaders opts store) "Content-Type" =
        some "application/json") ∧
    (hdrHas (hdrInit opts.callerHeaders) "Content-Type" = false →
      opts.bodyIsFormData = true →
      hdrGet (SmartAi.buildHeaders opts store) "Content-Type" = none) ∧
    (∀ v, hdrGet (hdrInit opts.callerHeaders) "Content-Type" = some v →
      hdrGet (SmartAi.buildHeaders opts store) "Content-Type" = some v) := by
  have gCA : ∀ (h : Hdrs) v,
      hdrGet (hdrSet h "Content-Type" v) "Accept" = hdrGet h "Accept" :=
    fun h v => hdrGet_set_ne h _ _ v (by decide)
  have gUA : ∀ (h : Hdrs) v,
      hdrGet (hdrSet h "Authorization" v) "Accept" = hdrGet h "Accept" :=
    fun h v => hdrGet_set_ne h _ _ v (by decide)
  have gUC : ∀ (h : Hdrs) v,
      hdrGet (hdrSet h "Authorization" v) "Content-Type" = hdrGet h "Content-Type" :=
    fun h v => hdrGet_set_ne h _ _ v (by decide)
  refine ⟨?_, ?_, ?_, ?_⟩
  · by_cases hC : opts.bodyIsFormData = false ∧
        hdrHas (hdrInit opts.callerHeaders) "Content-Type" = false <;>
      by_cases hAuth : opts.skipAuth = false ∧ accessTruthy store = true <;>
      simp [SmartAi.buildHeaders, hC, hAuth, gCA, gUA]
  · intro hct hfd
    by_cases hAuth : opts.skipAuth = false ∧ accessTruthy store = true <;>
      simp [SmartAi.buildHeaders, hct, hfd, hAuth, gUC, hdrGet_set_self]
  · intro hct hfd
    have hget : hdrGet (hdrInit opts.callerHeaders) "Content-Type" = none := by
      rcases hg : hdrGet (hdrInit opts.callerHeaders) "Content-Type" with _ | v
      · rfl
      · rw [hdrHas, hg] at hct; cases hct
    by_cases hAuth : opts.skipAuth = false ∧ accessTruthy store = true <;>
      simp [SmartAi.buildHeaders, hct, hfd, hAuth, gUC, hget]
  · intro v hv
    have hhasCT : hdrHas (hdrInit opts.callerHeaders) "Content-Type" = true := by
      simp [hdrHas, hv]
    by_cases hAuth : opts.skipAuth = false ∧ accessTruthy store = true <;>
      simp [SmartAi.buildHeaders, hhasCT, hAuth, gUC, hv]

/-- The header sets `request` sends: the built headers, re-sent with only
the Authorization entry replaced on the retry. -/
theorem django_attempts_shape (env : HttpEnv) (opts : RequestOptions)
    (store : Option StoredAuthState) :
    (Django.request env opts store).attempts = [Django.buildHeaders opts store] ∨
    (Django.request env opts store).attempts =
      [Django.buildHeaders opts store,
       hdrSet (Django.buildHeaders opts store) "Authorization"
         ("Bearer " ++
           ((Django.refreshAccessToken env.refreshResp store).newAccess.getD ""))] := by
  obtain ⟨f, rr, s2⟩ := env
  unfold Django.request
  cases f with
  | throws => left; rfl
  | ok r1 =>
    by_cases hcond : r1.status = 401 ∧ opts.skipAuth = false ∧
        refreshTruthy store = true
    · simp only [hcond, if_true]
      by_cases htru : strTruthy (Django.refreshAccessToken rr store).newAccess = true
      · simp only [htru, if_true]
        cases s2 with
        | throws => right; rfl
        | ok r2 => right; rfl
      · simp only [eq_false_of_ne_true htru, Bool.false_eq_true, if_false]
        left; rfl
    · simp [hcond]

/-- The header sets `apiRequest` sends, in the same shape. -/
theorem smartai_attempts_shape (env : HttpEnv) (opts : RequestOptions)
    (store : Option StoredAuthState) :
    (SmartAi.apiRequest env opts store).attempts =
      [SmartAi.buildHeaders opts store] ∨
    (SmartAi.apiRequest env opts store).attempts =
      [SmartAi.buildHeaders opts store,
       hdrSet (SmartAi.buildHeaders opts store) "Authorization"
         ("Bearer " ++
           ((SmartAi.refreshAccessToken env.refreshResp store).newAccess.getD ""))] := by
  obtain ⟨f, rr, s2⟩ := env
  unfold SmartAi.apiRequest
  cases f with
  | throws => left; rfl
  | ok r1 =>
    by_cases hcond : r1.status = 401 ∧ opts.skipAuth = false ∧
        refreshTruthy store = true
    · simp only [hcond, if_true]
      by_cases htru : strTruthy (SmartAi.refreshAccessToken rr store).newAccess = true
      · simp only [htru, if_true]
        cases s2 with
        | throws => right; rfl
        | ok r2 => right; rfl
      · simp only [eq_false_of_ne_true htru, Bool.false_eq_true, if_false]
        left; rfl
    · simp [hcond]

/-- C6 counterexample: `apiRequest` (one of the two functions the claim
covers) with no caller headers and the no-body method GET sends headers with
no Accept entry at all — the claim requires `Accept: application/json` —
and with `Content-Type: application/json` — the claim requires no
Content-Type for a no-body method. -/
theorem c6_counterexample :
    (SmartAi.apiRequest ⟨.ok ⟨200, none, none, ""⟩, .throws, .throws⟩
        { method := some "GET" } none).attempts =
      [[("content-type", "application/json")]] ∧
    hdrGet [("content-type", "application/json")] "Accept" = none ∧
    hdrGet [("content-type", "application/json")] "Content-Type" =
      some "application/json" ∧
    noBodyMethod (some "GET") = true ∧
    hdrHas (hdrInit ([] : List (String × String))) "Accept" = false := by
  refine ⟨rfl, by decide, by decide, rfl, rfl⟩

/-- C6 amended: for `request` the claim holds as stated — on every attempt's
header set, Accept is application/json exactly when the caller supplied no
Accept (the caller's value is kept otherwise), and Content-Type is
application/json exactly when the body is not FormData, the method is not a
no-body method (absent, empty or GET) and the caller supplied no
Content-Type (the caller's value is kept otherwise). For `apiRequest`, no
Accept default is ever added (the caller's Accept, when any, is kept), and
Content-Type is defaulted to application/json whenever the body is not
FormData and the caller supplied none, regardless of the method; caller
values are never overwritten. -/
theorem c6_header_defaults (env : HttpEnv) (opts : RequestOptions)
    (store : Option StoredAuthState) :
    (∀ h ∈ (Django.request env opts store).attempts,
      (hdrHas (hdrInit opts.callerHeaders) "Accept" = false →
        hdrGet h "Accept" = some "application/json") ∧
      (∀ v, hdrGet (hdrInit opts.callerHeaders) "Accept" = some v →
        hdrGet h "Accept" = some v) ∧
      (hdrHas (hdrInit opts.callerHeaders) "Content-Type" = false →
        opts.bodyIsFormData = false → noBodyMethod opts.method = false →
        hdrGet h "Content-Type" = some "application/json") ∧
      (hdrHas (hdrInit opts.callerHeaders) "Content-Type" = false →
        (opts.bodyIsFormData = true ∨ noBodyMethod opts.method = true) →
        hdrGet h "Content-Type" = none) ∧
      (∀ v, hdrGet (hdrInit opts.callerHeaders) "Content-Type" = some v →
        hdrGet h "Content-Type" = some v)) ∧
    (∀ h ∈ (SmartAi.apiRequest env opts store).attempts,
      (hdrGet h "Accept" = hdrGet (hdrInit opts.callerHeaders) "Accept") ∧
      (hdrHas (hdrInit opts.callerHeaders) "Content-Type" = false →
        opts.bodyIsFormData = false →
        hdrGet h "Content-Type" = some "application/json") ∧
      (hdrHas (hdrInit opts.callerHeaders) "Content-Type" = false →
        opts.bodyIsFormData = true →
        hdrGet h "Content-Type" = none) ∧
      (∀ v, hdrGet (hdrInit opts.callerHeaders) "Content-Type" = some v →
        hdrGet h "Content-Type" = some v)) := by
  have gUA : ∀ (h : Hdrs) v,
      hdrGet (hdrSet h "Authorization" v) "Accept" = hdrGet h "Accept" :=
    fun h v => hdrGet_set_ne h _ _ v (by decide)
  have gUC : ∀ (h : Hdrs) v,
      hdrGet (hdrSet h "Authorization" v) "Content-Type" = hdrGet h "Content-Type" :=
    fun h v => hdrGet_set_ne h _ _ v (by decide)
  constructor
  · intro h hmem
    have hAC : hdrGet h "Accept" = hdrGet (Django.buildHeaders opts store) "Accept" ∧
        hdrGet h "Content-Type" =
          hdrGet (Django.buildHeaders opts store) "Content-Type" := by
      rcases django_attempts_shape env opts store with hs | hs <;>
        rw [hs] at hmem <;>
        simp only [List.mem_singleton, List.mem_cons, List.not_mem_nil, or_false] at hmem
      · subst hmem; exact ⟨rfl, rfl⟩
      · rcases hmem with hmem | hmem <;> subst hmem
        · exact ⟨rfl, rfl⟩
        · exact ⟨gUA _ _, gUC _ _⟩
    obtain ⟨spec1, spec2, spec3, spec4, spec5⟩ := django_buildHeaders_spec opts store
    exact ⟨fun hh => hAC.1.trans (spec1 hh),
           fun v hv => hAC.1.trans (spec2 v hv),
           fun h1 h2 h3 => hAC.2.trans (spec3 h1 h2 h3),
           fun h1 h2 => hAC.2.trans (spec4 h1 h2),
           fun v hv => hAC.2.trans (spec5 v hv)⟩
  · intro h hmem
    have hAC : hdrGet h "Accept" = hdrGet (SmartAi.buildHeaders opts store) "Accept" ∧
        hdrGet h "Content-Type" =
          hdrGet (SmartAi.buildHeaders opts store) "Content-Type" := by
      rcases smartai_attempts_shape env opts store with hs | hs <;>
        rw [hs] at hmem <;>
        simp only [List.mem_singleton, List.mem_cons, List.not_mem_nil, or_false] at hmem
      · subst hmem; exact ⟨rfl, rfl⟩
      · rcases hmem with hmem | hmem <;> subst hmem
        · exact ⟨rfl, rfl⟩
        · exact ⟨gUA _ _, gUC _ _⟩
    obtain ⟨spec1, spec2, spec3, spec4⟩ := smartai_buildHeaders_spec opts store
    exact ⟨hAC.1.trans spec1,
           fun h1 h2 => hAC.2.trans (spec2 h1 h2),
           fun h1 h2 => hAC.2.trans (spec3 h1 h2),
           fun v hv => hAC.2.trans (spec4 v hv)⟩

/-- C6 amended witness: a POST with no caller headers gets both defaults on
the one attempt actually sent. -/
theorem c6_witness :
    hdrGet [("accept", "application/json"), ("content-type", "application/json")]
      "Accept" = some "application/json" ∧
    hdrGet [("accept", "application/json"), ("content-type", "application/json")]
      "Content-Type" = some "application/json" :=
  ⟨((c6_header_defaults ⟨.ok ⟨200, none, none, ""⟩, .throws, .throws⟩
      { method := some "POST" } none).1
      [("accept", "application/json"), ("content-type", "application/json")]
      (by decide)).1 (by decide),
   ((c6_header_defaults ⟨.ok ⟨200, none, none, ""⟩, .throws, .throws⟩
      { method := some "POST" } none).1
      [("accept", "application/json"), ("content-type", "application/json")]
      (by decide)).2.2.1 (by decide) rfl (by decide)⟩

/-- When the deciding fetch returned a response, `request`'s outcome and
final store are those of `finish` on that response, run on the store as left
by the (possibly skipped) refresh phase. -/
theorem django_request_via_finish (env : HttpEnv) (opts : RequestOptions)
    (store : Option StoredAuthState) (r : HttpResponse)
    (hr : Django.finalResp env opts store = some r) :
    ∃ st, (Django.request env opts store).outcome =
        (Django.finish opts.skipAuth r st).1 ∧
      (Django.request env opts store).store = (Django.finish opts.skipAuth r st).2 := by
  obtain ⟨f, rr, s2⟩ := env
  unfold Django.finalResp at hr
  unfold Django.request
  cases f with
  | throws => exact absurd hr (by simp)
  | ok r1 =>
    by_cases hcond : r1.status = 401 ∧ opts.skipAuth = false ∧
        refreshTruthy store = true
    · simp only [hcond, if_true] at hr ⊢
      by_cases htru : strTruthy (Django.refreshAccessToken rr store).newAccess = true
      · simp only [htru, if_true] at hr ⊢
        cases s2 with
        | throws => exact absurd hr (by simp)
        | ok r2 =>
          obtain rfl : r2 = r := Option.some.inj hr
          exact ⟨(Django.refreshAccessToken rr store).store, rfl, rfl⟩
      · simp only [eq_false_of_ne_true htru, Bool.false_eq_true, if_false] at hr ⊢
        obtain rfl : r1 = r := Option.some.inj hr
        exact ⟨(Django.refreshAccessToken rr store).store, rfl, rfl⟩
    · simp only [hcond, if_false] at hr ⊢
      obtain rfl : r1 = r := Option.some.inj hr
      exact ⟨store, rfl, rfl⟩

/-- Same connection for `apiRequest`, with the refresh-phase store made
explicit (this module's `finish` never modifies it). -/
theorem smartai_apiRequest_via_finish (env : HttpEnv) (opts : RequestOptions)
    (store : Option StoredAuthState) (r : HttpResponse)
    (hr : SmartAi.finalResp env opts store = some r) :
    (SmartAi.apiRequest env opts store).outcome =
      (SmartAi.finish r (SmartAi.refreshPhaseStore env opts store)).1 ∧
    (SmartAi.apiRequest env opts store).store =
      (SmartAi.finish r (SmartAi.refreshPhaseStore env opts store)).2 := by
  obtain ⟨f, rr, s2⟩ := env
  unfold SmartAi.finalResp at hr
  unfold SmartAi.apiRequest SmartAi.refreshPhaseStore
  cases f with
  | throws => exact absurd hr (by simp)
  | ok r1 =>
    by_cases hcond : r1.status = 401 ∧ opts.skipAuth = false ∧
        refreshTruthy store = true
    · simp only [hcond, if_true] at hr ⊢
      by_cases htru : strTruthy (SmartAi.refreshAccessToken rr store).newAccess = true
      · simp only [htru, if_true] at hr ⊢
        cases s2 with
        | throws => exact absurd hr (by simp)
        | ok r2 =>
          obtain rfl : r2 = r := Option.some.inj hr
          exact ⟨rfl, rfl⟩
      · simp only [eq_false_of_ne_true htru, Bool.false_eq_true, if_false] at hr ⊢
        obtain rfl : r1 = r := Option.some.inj hr
        exact ⟨rfl, rfl⟩
    · simp only [hcond, if_false] at hr ⊢
      obtain rfl : r1 = r := Option.some.inj hr
      exact ⟨rfl, rfl⟩

/-- `apiRequest` never touches the session after its refresh phase: the
final store always equals the refresh-phase store, whatever the final
status — in particular the error path performs no clearing. -/
theorem smartai_finish_store (r : HttpResponse) (st : Option StoredAuthState) :
    (SmartAi.finish r st).2 = st := by
  unfold SmartAi.finish
  split
  · rfl
  · rcases hp : SmartAi.parseBody r with _ | d
    · simp [hp]
    · simp only [hp]
      split <;> rfl

theorem smartai_store_frame (env : HttpEnv) (opts : RequestOptions)
    (store : Option StoredAuthState) :
    (SmartAi.apiRequest env opts store).store =
      SmartAi.refreshPhaseStore env opts store := by
  obtain ⟨f, rr, s2⟩ := env
  unfold SmartAi.apiRequest SmartAi.refreshPhaseStore
  cases f with
  | throws => rfl
  | ok r1 =>
    by_cases hcond : r1.status = 401 ∧ opts.skipAuth = false ∧
        refreshTruthy store = true
    · simp only [hcond, if_true]
      by_cases htru : strTruthy (SmartAi.refreshAccessToken rr store).newAccess = true
      · simp only [htru, if_true]
        cases s2 with
        | throws => rfl
        | ok r2 => exact smartai_finish_store r2 _
      · simp only [eq_false_of_ne_true htru, Bool.false_eq_true, if_false]
        exact smartai_finish_store r1 _
    · simp only [hcond, if_false]
      exact smartai_finish_store r1 store

/-- The source's error-message rule of `request` coincides with the
claim-side rule. -/
theorem django_errMessage_eq_spec (status : Nat) (d : ReqValue) :
    Django.errMessage status d = specErrMessage status d := by
  cases d with
  | json v =>
    cases v with
    | obj fields =>
      simp only [Django.errMessage, specErrMessage, specFieldStr, jsLookup,
        jsTruthyObject, if_true]
      rcases hd : lookupField fields "detail" with _ | dv
      · rcases hm : lookupField fields "message" with _ | mv
        · simp [hd, hm]
        · cases mv <;> simp [hd, hm]
      · cases dv <;>
          simp only [hd] <;>
          first
            | rfl
            | (rcases hm : lookupField fields "message" with _ | mv
               · simp [hm]
               · cases mv <;> simp [hm])
    | null => rfl
    | bool b => rfl
    | num n => rfl
    | str s => rfl
    | arr xs => rfl
  | undef => rfl
  | nullVal => rfl
  | text s => rfl

/-- C5 counterexample: a 200 response with no Content-Type header and body
text "hello" makes `apiRequest` (one of the two functions the claim covers)
return the body as plain text, where the claim requires no value (null). -/
theorem c5_counterexample :
    (SmartAi.apiRequest ⟨.ok ⟨200, none, none, "hello"⟩, .throws, .throws⟩
        {} none).outcome = .ok (.text "hello") ∧
    ReqValue.text "hello" ≠ ReqValue.nullVal :=
  ⟨rfl, fun h => nomatch h⟩

/-- C5 amended: for `request` the claim holds as stated — 204 yields no
value regardless of content type, a declared JSON content type parses the
body as JSON (an unparsable body propagating as a parse exception), any
other non-empty content type yields the body text, and an absent content
type yields null. `apiRequest` differs in the last point only: whenever the
declared content type is not JSON — including when none is present — it
yields the body text, never null. The parsed value is observed through the
outcome: returned on success, carried as the typed error's data otherwise. -/
theorem c5_body_parsing (env : HttpEnv) (opts : RequestOptions)
    (store : Option StoredAuthState) (r : HttpResponse) :
    (Django.finalResp env opts store = some r →
      (r.status = 204 → (Django.request env opts store).outcome = .ok .undef) ∧
      (r.status ≠ 204 →
        sIncludes (r.contentType.getD "") "application/json" = true →
        (∀ v, r.jsonBody = some v →
          dataOf (Django.request env opts store).outcome = some (.json v)) ∧
        (r.jsonBody = none →
          (Django.request env opts store).outcome = .error .parse)) ∧
      (r.status ≠ 204 →
        sIncludes (r.contentType.getD "") "application/json" = false →
        r.contentType.getD "" ≠ "" →
        dataOf (Django.request env opts store).outcome = some (.text r.textBody)) ∧
      (r.status ≠ 204 → r.contentType = none →
        dataOf (Django.request env opts store).outcome = some .nullVal)) ∧
    (SmartAi.finalResp env opts store = some r →
      (r.status = 204 → (SmartAi.apiRequest env opts store).outcome = .ok .undef) ∧
      (r.status ≠ 204 →
        sIncludes (r.contentType.getD "") "application/json" = true →
        (∀ v, r.jsonBody = some v →
          dataOf (SmartAi.apiRequest env opts store).outcome = some (.json v)) ∧
        (r.jsonBody = none →
          (SmartAi.apiRequest env opts store).outcome = .error .parse)) ∧
      (r.status ≠ 204 →
        sIncludes (r.contentType.getD "") "application/json" = false →
        dataOf (SmartAi.apiRequest env opts store).outcome =
          some (.text r.textBody))) := by
  constructor
  · intro hr
    obtain ⟨st, ho, _⟩ := django_request_via_finish env opts store r hr
    rw [ho]
    refine ⟨?_, ?_, ?_, ?_⟩
    · intro h204
      unfold Django.finish
      rw [if_pos h204]
    · intro h204 hct
      constructor
      · intro v hv
        have hp : Django.parseBody r = some (.json v) := by
          unfold Django.parseBody
          simp [hct, hv]
        unfold Django.finish
        rw [if_neg h204]
        simp only [hp]
        split <;> rfl
      · intro hv
        have hp : Django.parseBody r = none := by
          unfold Django.parseBody
          simp [hct, hv]
        unfold Django.finish
        rw [if_neg h204]
        simp [hp]
    · intro h204 hct hne
      have hlen : (r.contentType.getD "").length > 0 := by
        rcases hq : r.contentType.getD "" with ⟨l⟩
        cases l with
        | nil => exact absurd hq hne
        | cons c cs => simp [String.length]
      have hp : Django.parseBody r = some (.text r.textBody) := by
        unfold Django.parseBody
        simp [hct, hlen]
      unfold Django.finish
      rw [if_neg h204]
      simp only [hp]
      split <;> rfl
    · intro h204 hctn
      have hp : Django.parseBody r = some .nullVal := by
        unfold Django.parseBody
        rw [hctn]
        rfl
      unfold Django.finish
      rw [if_neg h204]
      simp only [hp]
      split <;> rfl
  · intro hr
    have ho := (smartai_apiRequest_via_finish env opts store r hr).1
    rw [ho]
    refine ⟨?_, ?_, ?_⟩
    · intro h204
      unfold SmartAi.finish
      rw [if_pos h204]
    · intro h204 hct
      constructor
      · intro v hv
        have hp : SmartAi.parseBody r = some (.json v) := by
          unfold SmartAi.parseBody
          simp [hct, hv]
        unfold SmartAi.finish
        rw [if_neg h204]
        simp only [hp]
        split <;> rfl
      · intro hv
        have hp : SmartAi.parseBody r = none := by
          unfold SmartAi.parseBody
          simp [hct, hv]
        unfold SmartAi.finish
        rw [if_neg h204]
        simp [hp]
    · intro h204 hct
      have hp : SmartAi.parseBody r = some (.text r.textBody) := by
        unfold SmartAi.parseBody
        simp [hct]
      unfold SmartAi.finish
      rw [if_neg h204]
      simp only [hp]
      split <;> rfl

/-- C5 amended witness: a 200 text/plain response through `request` yields
its body text. -/
theorem c5_witness :
    dataOf (Django.request
        ⟨.ok ⟨200, some "text/plain", none, "hi"⟩, .throws, .throws⟩
        {} none).outcome = some (.text "hi") :=
  ((c5_body_parsing ⟨.ok ⟨200, some "text/plain", none, "hi"⟩, .throws, .throws⟩
      {} none ⟨200, some "text/plain", none, "hi"⟩).1 rfl).2.2.1
    (by decide) (by decide) (by decide)

/-- C2 counterexample: on a final 400 response whose JSON body is
`\x7bdetail: 5\x7d`, `apiRequest` (one of the two functions the claim
covers) raises the typed error with message "5" — the number coerced to a
string — where the claim's rule (detail is not a string, no message field)
requires the generic "Request failed with status 400". -/
theorem c2_counterexample :
    (SmartAi.apiRequest
        ⟨.ok ⟨400, some "application/json", some (.obj [("detail", .num 5)]), ""⟩,
         .throws, .throws⟩ {} none).outcome =
      .error (.api "5" 400 (.json (.obj [("detail", .num 5)]))) ∧
    specErrMessage 400 (.json (.obj [("detail", .num 5)])) =
      "Request failed with status 400" ∧
    ("5" : String) ≠ "Request failed with status 400" :=
  ⟨rfl, rfl, by decide⟩

/-- C2 amended: for `request` the claim holds as stated — every final
response with a non-204, non-success status raises the typed error carrying
that status, the parsed body as data, and the message given by the body's
`detail` field when a string, else its `message` field when a string, else
the generic string; and on a 401 with auth required the session is cleared
before the error is raised (the final store is empty). `apiRequest` raises
the typed error with status and parsed body likewise, but takes the message
from any present non-null `detail` (then `message`) value regardless of
type, coercing it to a string, and never clears the session itself at the
error step: its final store is always whatever the refresh phase left. -/
theorem c2_typed_error (env : HttpEnv) (opts : RequestOptions)
    (store : Option StoredAuthState) (r : HttpResponse) (d : ReqValue) :
    (Django.finalResp env opts store = some r → r.status ≠ 204 →
      respOk r.status = false → Django.parseBody r = some d →
      (Django.request env opts store).outcome =
        .error (.api (specErrMessage r.status d) r.status d) ∧
      (r.status = 401 → opts.skipAuth = false →
        (Django.request env opts store).store = none)) ∧
    (SmartAi.finalResp env opts store = some r → r.status ≠ 204 →
      respOk r.status = false → SmartAi.parseBody r = some d →
      (SmartAi.apiRequest env opts store).outcome =
        .error (.api (SmartAi.errMessage r.status d) r.status d)) ∧
    ((SmartAi.apiRequest env opts store).store =
      SmartAi.refreshPhaseStore env opts store) := by
  refine ⟨?_, ?_, smartai_store_frame env opts store⟩
  · intro hr h204 hok hp
    obtain ⟨st, ho, hs⟩ := django_request_via_finish env opts store r hr
    constructor
    · rw [ho]
      unfold Django.finish
      rw [if_neg h204]
      simp only [hp, hok, Bool.false_eq_true, if_false]
      rw [django_errMessage_eq_spec]
    · intro h401 hskip
      rw [hs]
      unfold Django.finish
      rw [if_neg h204]
      simp only [hp, hok, Bool.false_eq_true, if_false]
      rw [if_pos ⟨h401, hskip⟩]
  · intro hr h204 hok hp
    rw [(smartai_apiRequest_via_finish env opts store r hr).1]
    unfold SmartAi.finish
    rw [if_neg h204]
    simp only [hp, hok, Bool.false_eq_true, if_false]

/-- C2 amended witness: a 404 with a string detail raises the typed error
with that detail, and a final 401 with auth required empties the store. -/
theorem c2_witness :
    (Django.request
        ⟨.ok ⟨404, some "application/json",
            some (.obj [("detail", .str "nope")]), ""⟩, .throws, .throws⟩
        {} none).outcome =
      .error (.api (specErrMessage 404 (.json (.obj [("detail", .str "nope")])))
        404 (.json (.obj [("detail", .str "nope")]))) ∧
    (Django.request ⟨.ok ⟨401, none, none, ""⟩, .throws, .throws⟩
        {} (some ⟨⟨"A", ""⟩, ⟨"1", "e", "n"⟩⟩)).store = none :=
  ⟨((c2_typed_error
      ⟨.ok ⟨404, some "application/json",
          some (.obj [("detail", .str "nope")]), ""⟩, .throws, .throws⟩
      {} none ⟨404, some "application/json",
          some (.obj [("detail", .str "nope")]), ""⟩
      (.json (.obj [("detail", .str "nope")]))).1 rfl (by decide) (by decide)
      rfl).1,
   ((c2_typed_error ⟨.ok ⟨401, none, none, ""⟩, .throws, .throws⟩
      {} (some ⟨⟨"A", ""⟩, ⟨"1", "e", "n"⟩⟩) ⟨401, none, none, ""⟩
      .nullVal).1 rfl (by decide) (by decide) rfl).2 rfl rfl⟩

/-- With a stored session whose refresh token is non-empty, the djangoApi
refresh sub-procedure performs exactly one refresh-endpoint fetch. -/
theorem django_refresh_fetches (envr : FetchOutcome) (s : StoredAuthState)
    (hrf : s.tokens.refresh ≠ "") :
    (Django.refreshAccessToken envr (some s)).fetches = 1 := by
  simp only [Django.refreshAccessToken]
  rw [if_neg hrf]
  cases envr with
  | throws => rfl
  | ok r =>
    by_cases hok : respOk r.status = true
    · simp only [hok, if_true]
      rcases hj : r.jsonBody with _ | v
      · rfl
      · rcases hl : jsLookup v "access" with _ | lv
        · simp [hl]
        · cases lv <;> simp [hl]
    · simp only [eq_false_of_ne_true hok, Bool.false_eq_true, if_false]

/-- With any stored session, the do-smart-ai refresh sub-procedure performs
exactly one refresh-endpoint fetch. -/
theorem smartai_refresh_fetches (envr : FetchOutcome) (s : StoredAuthState) :
    (SmartAi.refreshAccessToken envr (some s)).fetches = 1 := by
  simp only [SmartAi.refreshAccessToken]
  cases envr with
  | throws => rfl
  | ok r =>
    by_cases hok : respOk r.status = true
    · simp only [hok, if_true]
      rcases hj : r.jsonBody with _ | v
      · rfl
      · rcases hl : jsLookup v "access" with _ | lv
        · simp [hl]
        · cases lv <;> simp [hl]
    · simp only [eq_false_of_ne_true hok, Bool.false_eq_true, if_false]

/-- C1: with auth required (skipAuth false), a stored session whose refresh
token is present, and a first response of status 401, both `request` and
`apiRequest` perform exactly one token-refresh attempt. When the refresh
succeeds (returns a truthy token a), the original request is re-issued
exactly once — two attempts, the second carrying `Authorization: Bearer a` —
and the outcome is that of the second response (a network throw on the
retry propagating as a transport error). When the refresh fails, the
request is not re-issued — one attempt — and the outcome derives from the
original 401 response: when its body parses, the surfaced error is the typed
401 error. In every execution, with any inputs, the original request is
issued at most twice. -/
theorem c1_refresh_retry_once (env : HttpEnv) (opts : RequestOptions)
    (store : Option StoredAuthState) (s : StoredAuthState) (r1 : HttpResponse)
    (hskip : opts.skipAuth = false) (hstore : store = some s)
    (hrf : s.tokens.refresh ≠ "") (hf : env.first = .ok r1)
    (h401 : r1.status = 401) :
    ((Django.request env opts store).refreshCalls = 1 ∧
     (∀ a, (Django.refreshAccessToken env.refreshResp store).newAccess = some a →
        a ≠ "" →
        (Django.request env opts store).attempts =
          [Django.buildHeaders opts store,
           hdrSet (Django.buildHeaders opts store) "Authorization" ("Bearer " ++ a)] ∧
        (∀ r2, env.second = .ok r2 →
          (Django.request env opts store).outcome =
            (Django.finish opts.skipAuth r2
              (Django.refreshAccessToken env.refreshResp store).store).1 ∧
          (Django.request env opts store).store =
            (Django.finish opts.skipAuth r2
              (Django.refreshAccessToken env.refreshResp store).store).2) ∧
        (env.second = .throws →
          (Django.request env opts store).outcome = .error .transport)) ∧
     (strTruthy (Django.refreshAccessToken env.refreshResp store).newAccess = false →
        (Django.request env opts store).attempts = [Django.buildHeaders opts store] ∧
        (Django.request env opts store).outcome =
          (Django.finish opts.skipAuth r1
            (Django.refreshAccessToken env.refreshResp store).store).1 ∧
        (∀ d, Django.parseBody r1 = some d →
          (Django.request env opts store).outcome =
            .error (.api (specErrMessage 401 d) 401 d)))) ∧
    ((SmartAi.apiRequest env opts store).refreshCalls = 1 ∧
     (∀ a, (SmartAi.refreshAccessToken env.refreshResp store).newAccess = some a →
        a ≠ "" →
        (SmartAi.apiRequest env opts store).attempts =
          [SmartAi.buildHeaders opts store,
           hdrSet (SmartAi.buildHeaders opts store) "Authorization" ("Bearer " ++ a)] ∧
        (∀ r2, env.second = .ok r2 →
          (SmartAi.apiRequest env opts store).outcome =
            (SmartAi.finish r2
              (SmartAi.refreshAccessToken env.refreshResp store).store).1) ∧
        (env.second = .throws →
          (SmartAi.apiRequest env opts store).outcome = .error .transport)) ∧
     (strTruthy (SmartAi.refreshAccessToken env.refreshResp store).newAccess = false →
        (SmartAi.apiRequest env opts store).attempts =
          [SmartAi.buildHeaders opts store] ∧
        (SmartAi.apiRequest env opts store).outcome =
          (SmartAi.finish r1
            (SmartAi.refreshAccessToken env.refreshResp store).store).1 ∧
        (∀ d, SmartAi.parseBody r1 = some d →
          (SmartAi.apiRequest env opts store).outcome =
            .error (.api (SmartAi.errMessage 401 d) 401 d)))) ∧
    (∀ (env2 : HttpEnv) (opts2 : RequestOptions) (store2 : Option StoredAuthState),
      (Django.request env2 opts2 store2).attempts.length ≤ 2 ∧
      (SmartAi.apiRequest env2 opts2 store2).attempts.length ≤ 2) := by
  subst hstore
  obtain ⟨f, rrsp, s2⟩ := env
  simp only at hf
  subst hf
  have hcond : r1.status = 401 ∧ opts.skipAuth = false ∧
      refreshTruthy (some s) = true := ⟨h401, hskip, by simp [refreshTruthy, hrf]⟩
  have h204 : ¬r1.status = 204 := by rw [h401]; decide
  have hok : respOk r1.status = false := by rw [h401]; rfl
  refine ⟨⟨?_, ?_, ?_⟩, ⟨?_, ?_, ?_⟩, ?_⟩
  · unfold Django.request
    simp only [hcond, if_true]
    by_cases htru : strTruthy (Django.refreshAccessToken rrsp (some s)).newAccess = true
    · simp only [htru, if_true]
      cases s2 <;> simp [django_refresh_fetches rrsp s hrf]
    · simp only [eq_false_of_ne_true htru, Bool.false_eq_true, if_false]
      simp [django_refresh_fetches rrsp s hrf]
  · intro a ha hane
    have htru : strTruthy (Django.refreshAccessToken rrsp (some s)).newAccess = true := by
      simp [strTruthy, ha, hane]
    refine ⟨?_, ?_, ?_⟩
    · unfold Django.request
      simp only [hcond, if_true, htru]
      cases s2 <;> simp [ha]
    · intro r2 hs2
      simp only at hs2
      subst hs2
      unfold Django.request
      simp only [hcond, if_true, htru, if_true]
      exact ⟨rfl, rfl⟩
    · intro hs2
      simp only at hs2
      subst hs2
      unfold Django.request
      simp only [hcond, if_true, htru, if_true]
      rfl
  · intro hfail
    have htru : ¬strTruthy (Django.refreshAccessToken rrsp (some s)).newAccess = true := by
      rw [hfail]; simp
    have hred : Django.request ⟨.ok r1, rrsp, s2⟩ opts (some s) =
        ⟨(Django.finish opts.skipAuth r1
            (Django.refreshAccessToken rrsp (some s)).store).1,
         (Django.finish opts.skipAuth r1
            (Django.refreshAccessToken rrsp (some s)).store).2,
         [Django.buildHeaders opts (some s)],
         (Django.refreshAccessToken rrsp (some s)).fetches⟩ := by
      unfold Django.request
      simp only [hcond, if_true, eq_false_of_ne_true htru, Bool.false_eq_true,
        if_false]
      rfl
    refine ⟨by rw [hred], by rw [hred], ?_⟩
    intro d hd
    rw [hred]
    show (Django.finish opts.skipAuth r1
        (Django.refreshAccessToken rrsp (some s)).store).1 = _
    unfold Django.finish
    rw [if_neg h204]
    simp only [hd, hok, Bool.false_eq_true, if_false]
    rw [django_errMessage_eq_spec, h401]
  · unfold SmartAi.apiRequest
    simp only [hcond, if_true]
    by_cases htru : strTruthy (SmartAi.refreshAccessToken rrsp (some s)).newAccess = true
    · simp only [htru, if_true]
      cases s2 <;> simp [smartai_refresh_fetches rrsp s]
    · simp only [eq_false_of_ne_true htru, Bool.false_eq_true, if_false]
      simp [smartai_refresh_fetches rrsp s]
  · intro a ha hane
    have htru : strTruthy (SmartAi.refreshAccessToken rrsp (some s)).newAccess = true := by
      simp [strTruthy, ha, hane]
    refine ⟨?_, ?_, ?_⟩
    · unfold SmartAi.apiRequest
      simp only [hcond, if_true, htru, if_true]
      cases s2 <;> simp [ha]
    · intro r2 hs2
      simp only at hs2
      subst hs2
      unfold SmartAi.apiRequest
      simp only [hcond, if_true, htru, if_true]
      rfl
    · intro hs2
      simp only at hs2
      subst hs2
      unfold SmartAi.apiRequest
      simp only [hcond, if_true, htru, if_true]
      rfl
  · intro hfail
    have htru : ¬strTruthy (SmartAi.refreshAccessToken rrsp (some s)).newAccess = true := by
      rw [hfail]; simp
    have hred : SmartAi.apiRequest ⟨.ok r1, rrsp, s2⟩ opts (some s) =
        ⟨(SmartAi.finish r1 (SmartAi.refreshAccessToken rrsp (some s)).store).1,
         (SmartAi.finish r1 (SmartAi.refreshAccessToken rrsp (some s)).store).2,
         [SmartAi.buildHeaders opts (some s)],
         (SmartAi.refreshAccessToken rrsp (some s)).fetches⟩ := by
      unfold SmartAi.apiRequest
      simp only [hcond, if_true, eq_false_of_ne_true htru, Bool.false_eq_true,
        if_false]
      rfl
    refine ⟨by rw [hred], by rw [hred], ?_⟩
    intro d hd
    rw [hred]
    show (SmartAi.finish r1
        (SmartAi.refreshAccessToken rrsp (some s)).store).1 = _
    unfold SmartAi.finish
    rw [if_neg h204]
    simp only [hd, hok, Bool.false_eq_true, if_false]
    rw [h401]
  · intro env2 opts2 store2
    constructor
    · rcases django_attempts_shape env2 opts2 store2 with hs | hs <;> rw [hs] <;> simp
    · rcases smartai_attempts_shape env2 opts2 store2 with hs | hs <;> rw [hs] <;> simp

/-- C1 witness: a 401 first response with a stored session (refresh "R"),
a successful refresh returning "A2", and a 204 retry: one refresh call and
two attempts, the second with the new bearer token. -/
theorem c1_witness :
    (Django.request
        ⟨.ok ⟨401, none, none, ""⟩,
         .ok ⟨200, some "application/json",
            some (.obj [("access", .str "A2")]), ""⟩,
         .ok ⟨204, none, none, ""⟩⟩
        {} (some ⟨⟨"A", "R"⟩, ⟨"1", "e", "n"⟩⟩)).refreshCalls = 1 ∧
    (Django.request
        ⟨.ok ⟨401, none, none, ""⟩,
         .ok ⟨200, some "application/json",
            some (.obj [("access", .str "A2")]), ""⟩,
         .ok ⟨204, none, none, ""⟩⟩
        {} (some ⟨⟨"A", "R"⟩, ⟨"1", "e", "n"⟩⟩)).attempts =
      [Django.buildHeaders {} (some ⟨⟨"A", "R"⟩, ⟨"1", "e", "n"⟩⟩),
       hdrSet (Django.buildHeaders {} (some ⟨⟨"A", "R"⟩, ⟨"1", "e", "n"⟩⟩))
         "Authorization" ("Bearer " ++ "A2")] := by
  have h := c1_refresh_retry_once
    ⟨.ok ⟨401, none, none, ""⟩,
     .ok ⟨200, some "application/json",
        some (.obj [("access", .str "A2")]), ""⟩,
     .ok ⟨204, none, none, ""⟩⟩
    {} (some ⟨⟨"A", "R"⟩, ⟨"1", "e", "n"⟩⟩) ⟨⟨"A", "R"⟩, ⟨"1", "e", "n"⟩⟩
    ⟨401, none, none, ""⟩ rfl rfl (by decide) rfl rfl
  exact ⟨h.1.1, (h.1.2.1 "A2" rfl (by decide)).1⟩

end AiManagerApp
